import Mathlib

/-!
Verification of the Bitso trading bot (src/bitso_trading_bot.py) against its
natural-language specification.  The Python source is shallowly embedded:
Decimal arithmetic is modelled by exact rationals, the exchange API and the
database are modelled by an explicit environment value, and each method of
the BitsoTradingBot class becomes a pure function on an explicit bot state.
-/

namespace BitsoBot

/-- Module-level constant TARGET_PROFIT_PERCENTAGE = Decimal 0.02. -/
def TARGET_PROFIT_PERCENTAGE : ℚ := 2 / 100

/-- Module-level constant SPREAD_FEE = Decimal 0.01 (fallback fee). -/
def SPREAD_FEE : ℚ := 1 / 100

/-- Module-level constant MAX_SELL_PRICE_FACTOR = Decimal 1.10. -/
def MAX_SELL_PRICE_FACTOR : ℚ := 11 / 10

/-- Module-level constant TRADE_AMOUNT = Decimal 0.00001. -/
def TRADE_AMOUNT : ℚ := 1 / 100000

/-- Module-level constant BOOK = "btc_mxn". -/
def BOOK : String := "btc_mxn"

/-- Decimal.quantize(Decimal 0.01, rounding=ROUND_DOWN): round towards zero
to 2 decimal places. -/
def quantize2_down (x : ℚ) : ℚ :=
  if 0 ≤ x then ((⌊x * 100⌋ : ℤ) : ℚ) / 100 else ((⌈x * 100⌉ : ℤ) : ℚ) / 100

/-- Decimal.quantize(Decimal 0.01, rounding=ROUND_UP): round away from zero
to 2 decimal places. -/
def quantize2_up (x : ℚ) : ℚ :=
  if 0 ≤ x then ((⌈x * 100⌉ : ℤ) : ℚ) / 100 else ((⌊x * 100⌋ : ℤ) : ℚ) / 100

/-- The Order row of the orders table (class Order).  Timestamps are omitted;
no verified property depends on them. -/
structure Order where
  order_id : String
  book : String
  side : String
  price : ℚ
  amount : ℚ
  target_price : Option ℚ
  status : String
  is_active : Bool
deriving DecidableEq, Repr

/-- Ticker data returned by api.ticker. -/
structure Ticker where
  bid : ℚ
  ask : ℚ
deriving DecidableEq, Repr

/-- Account balances returned by api.balances (available amounts). -/
structure Balances where
  btc : ℚ
  mxn : ℚ
deriving DecidableEq, Repr

/-- Outcome of api.lookup_order on one id: a status string, an empty result
list, the Bitso error 0312 (order already closed), or any other exception. -/
inductive LookupResult where
  | found (status : String)
  | empty
  | errClosed
  | errOther
deriving DecidableEq, Repr

/-- The external world of one trading cycle: exchange API results and a flag
injecting a database insert failure.  A none value of an Option field means
the corresponding remote call raises. -/
structure Env where
  ticker : Option Ticker
  fee_percent : Option ℚ
  balances : Option Balances
  placeOrder : String → ℚ → Option String
  lookupOrder : String → LookupResult
  cancelOrder : String → Option String
  dbFail : Bool

/-- Per-instance configuration passed to the BitsoTradingBot constructor. -/
structure BotCfg where
  book : String
  trade_amount : ℚ
deriving DecidableEq, Repr

/-- Mutable state of a BitsoTradingBot instance: the database table of
orders plus the two in-process id lists. -/
structure BotState where
  ledger : List Order
  active_buy_orders : List String
  active_sell_orders : List String
deriving DecidableEq, Repr

/-- get_fees: api.fees().btc_mxn.fee_percent / 100, or SPREAD_FEE when the
remote call raises. -/
def get_fees (e : Env) : ℚ :=
  match e.fee_percent with
  | some p => p / 100
  | none => SPREAD_FEE

/-- calculate_prices(ticker, fee): returns none when the ticker is missing,
otherwise the pair (buy_price, sell_price) with the rounding and clamping
of lines 124-175 of the source. -/
def calculate_prices (cfg : BotCfg) (ticker : Option Ticker) (fee : ℚ) :
    Option (ℚ × ℚ) :=
  match ticker with
  | none => none
  | some tk =>
    let buy_price := quantize2_down tk.bid
    let btc_fee := cfg.trade_amount * fee
    let effective_btc := cfg.trade_amount - btc_fee
    let breakeven_price := (buy_price * cfg.trade_amount) / effective_btc
    let sell_price := buy_price * (1 + TARGET_PROFIT_PERCENTAGE)
    let sell_price := max sell_price breakeven_price
    let max_sell_price := buy_price * MAX_SELL_PRICE_FACTOR
    let sell_price := min sell_price max_sell_price
    let sell_price := quantize2_up sell_price
    some (buy_price, sell_price)

/-- The breakeven computation of the pricing path with the division guarded:
Decimal division by zero raises in Python, modelled here by none. -/
def breakeven_price (buy_price trade_amount fee : ℚ) : Option ℚ :=
  let btc_fee := trade_amount * fee
  let effective_btc := trade_amount - btc_fee
  if effective_btc = 0 then none
  else some ((buy_price * trade_amount) / effective_btc)

/-- save_order_to_db: inserts a new row, or leaves the table unchanged
(rollback, exception swallowed) when the insert raises — either through the
injected failure flag or through the unique constraint on order_id.  The
column default sets is_active to true regardless of the status argument, and
a falsy target_price (None or 0) is stored as NULL. -/
def save_order_to_db (cfg : BotCfg) (ledger : List Order) (dbFail : Bool)
    (oid side : String) (price amount : ℚ) (target_price : Option ℚ)
    (status : String) : List Order :=
  if dbFail || ledger.any (fun o => o.order_id == oid) then ledger
  else
    ledger ++ [{ order_id := oid, book := cfg.book, side := side,
                 price := price, amount := amount,
                 target_price :=
                   match target_price with
                   | some x => if x == 0 then none else some x
                   | none => none,
                 status := status, is_active := true }]

/-- update_order_status: finds the first row with the given order_id (there
is at most one), sets its status, and clears is_active when the new status
is not the active one; unknown ids are a silent no-op. -/
def update_order_status (ledger : List Order) (oid status : String) :
    List Order :=
  match ledger with
  | [] => []
  | o :: rest =>
    if o.order_id == oid then
      { o with status := status,
               is_active := if status = "active" then o.is_active else false }
        :: rest
    else o :: update_order_status rest oid status

/-- get_active_orders_from_db: all rows with is_active true (a snapshot). -/
def get_active_orders_from_db (ledger : List Order) : List Order :=
  ledger.filter (fun o => o.is_active)

/-- count_active_orders_by_side: number of active rows of the given side. -/
def count_active_orders_by_side (ledger : List Order) (side : String) : ℕ :=
  (ledger.filter (fun o => o.is_active && o.side == side)).length

/-- place_buy_order(price): checks the MXN balance, fetches the fee, places
the order remotely, derives the sell target price with the same clamping as
calculate_prices, saves the row, and appends the id to active_buy_orders.
Any raising remote call makes the whole method return None with the state
unchanged; a failing database insert is swallowed inside save_order_to_db,
so the id is appended regardless. -/
def place_buy_order (cfg : BotCfg) (st : BotState) (e : Env) (price : ℚ) :
    BotState × Option String :=
  match e.balances with
  | none => (st, none)
  | some balances =>
    let required_mxn := price * cfg.trade_amount
    if balances.mxn < required_mxn then (st, none)
    else
      let fee := get_fees e
      match e.placeOrder "buy" price with
      | none => (st, none)
      | some oid =>
        let btc_fee := cfg.trade_amount * fee
        let effective_btc := cfg.trade_amount - btc_fee
        let breakeven := (price * cfg.trade_amount) / effective_btc
        let target_price := price * (1 + TARGET_PROFIT_PERCENTAGE)
        let target_price := max target_price breakeven
        let max_target_price := price * MAX_SELL_PRICE_FACTOR
        let target_price := min target_price max_target_price
        let target_price := quantize2_up target_price
        ({ ledger := save_order_to_db cfg st.ledger e.dbFail oid "buy" price
                       cfg.trade_amount (some target_price) "active",
           active_buy_orders := st.active_buy_orders ++ [oid],
           active_sell_orders := st.active_sell_orders }, some oid)

/-- place_sell_order(price, buy_price): checks the BTC balance (amount plus
fee), places the order remotely, saves the row storing buy_price in the
target_price column, and appends the id to active_sell_orders. -/
def place_sell_order (cfg : BotCfg) (st : BotState) (e : Env) (price : ℚ)
    (buy_price : Option ℚ) : BotState × Option String :=
  match e.balances with
  | none => (st, none)
  | some balances =>
    let fee := get_fees e
    let btc_fee := cfg.trade_amount * fee
    let required_btc := cfg.trade_amount + btc_fee
    if balances.btc < required_btc then (st, none)
    else
      match e.placeOrder "sell" price with
      | none => (st, none)
      | some oid =>
        ({ ledger := save_order_to_db cfg st.ledger e.dbFail oid "sell" price
                       cfg.trade_amount buy_price "active",
           active_buy_orders := st.active_buy_orders,
           active_sell_orders := st.active_sell_orders ++ [oid] }, some oid)

/-- check_order_status(order_id): looks the order up remotely.  A reported
status of complete or cancelled is written to the ledger verbatim and the id
is removed from both in-process lists; the Bitso error 0312 (order already
closed) sets the local status to completed and removes the id likewise;
any other error, an empty result or a falsy id yields None with no change. -/
def check_order_status (st : BotState) (e : Env) (oid : String) :
    BotState × Option String :=
  if oid == "" then (st, none)
  else
    match e.lookupOrder oid with
    | .found status =>
      if status = "complete" ∨ status = "cancelled" then
        ({ ledger := update_order_status st.ledger oid status,
           active_buy_orders := st.active_buy_orders.erase oid,
           active_sell_orders := st.active_sell_orders.erase oid },
         some status)
      else (st, some status)
    | .empty => (st, none)
    | .errClosed =>
      ({ ledger := update_order_status st.ledger oid "completed",
         active_buy_orders := st.active_buy_orders.erase oid,
         active_sell_orders := st.active_sell_orders.erase oid }, none)
    | .errOther => (st, none)

/-- cancel_order(order_id): issues the remote cancellation; only the exact
result string true marks the row cancelled and removes the id from the
in-process lists; a raising call is caught and reported as false. -/
def cancel_order (st : BotState) (e : Env) (oid : String) :
    BotState × Bool :=
  if oid == "" then (st, false)
  else
    match e.cancelOrder oid with
    | none => (st, false)
    | some result =>
      if result == "true" then
        ({ ledger := update_order_status st.ledger oid "cancelled",
           active_buy_orders := st.active_buy_orders.erase oid,
           active_sell_orders := st.active_sell_orders.erase oid }, true)
      else (st, false)

/-- Loop body of check_active_orders (lines 413-494 of the source): check
the remote status, skip every order whose looked-up status is not open, and
otherwise run the completed-buy sell-placement block or the sell-side
advisory block (the latter only logs, so it is the identity here). -/
def check_orders_body (cfg : BotCfg) (e : Env) (fee : ℚ) (st : BotState)
    (order : Order) : BotState :=
  let res := check_order_status st e order.order_id
  let st1 := res.1
  match res.2 with
  | none => st1
  | some status =>
    if status ≠ "open" then st1
    else
      if order.side = "buy" ∧ status = "complete" then
        let buy_price := order.price
        let sell_price :=
          match order.target_price with
          | some tp =>
            if tp == 0 then
              let btc_fee := cfg.trade_amount * fee
              let effective_btc := cfg.trade_amount - btc_fee
              let breakeven := (buy_price * cfg.trade_amount) / effective_btc
              let sp := buy_price * (1 + TARGET_PROFIT_PERCENTAGE)
              let sp := max sp breakeven
              let sp := min sp (buy_price * MAX_SELL_PRICE_FACTOR)
              quantize2_up sp
            else min tp (buy_price * MAX_SELL_PRICE_FACTOR)
          | none =>
            let btc_fee := cfg.trade_amount * fee
            let effective_btc := cfg.trade_amount - btc_fee
            let breakeven := (buy_price * cfg.trade_amount) / effective_btc
            let sp := buy_price * (1 + TARGET_PROFIT_PERCENTAGE)
            let sp := max sp breakeven
            let sp := min sp (buy_price * MAX_SELL_PRICE_FACTOR)
            quantize2_up sp
        let btc_fee := cfg.trade_amount * fee
        let effective_btc := cfg.trade_amount - btc_fee
        let min_profitable := (buy_price * cfg.trade_amount) / effective_btc
        let sell_price :=
          if sell_price < min_profitable then quantize2_up min_profitable
          else sell_price
        let st2 := (place_sell_order cfg st1 e sell_price (some buy_price)).1
        { st2 with
          ledger := update_order_status st2.ledger order.order_id "completed" }
      else st1

/-- check_active_orders: takes the snapshot of active rows, returns early
when it is empty or the ticker raises, fetches the fee once, then folds the
loop body over the snapshot. -/
def check_active_orders (cfg : BotCfg) (st : BotState) (e : Env) : BotState :=
  let active_orders := get_active_orders_from_db st.ledger
  if active_orders.isEmpty then st
  else
    match e.ticker with
    | none => st
    | some _ =>
      let fee := get_fees e
      active_orders.foldl (check_orders_body cfg e fee) st

/-- run_trading_cycle: reconcile active orders, fetch ticker, fee, prices
and balances, then place a sell and a buy gated only by balance checks (a
falsy computed price also ends the cycle). -/
def run_trading_cycle (cfg : BotCfg) (st : BotState) (e : Env) : BotState :=
  let st1 := check_active_orders cfg st e
  match e.ticker with
  | none => st1
  | some tk =>
    let fee := get_fees e
    match calculate_prices cfg (some tk) fee with
    | none => st1
    | some (buy_price, sell_price) =>
      if buy_price = 0 ∨ sell_price = 0 then st1
      else
        match e.balances with
        | none => st1
        | some balances =>
          let btc_fee := cfg.trade_amount * fee
          let required_btc := cfg.trade_amount + btc_fee
          let st2 :=
            if required_btc ≤ balances.btc then
              (place_sell_order cfg st1 e sell_price none).1
            else st1
          if buy_price * cfg.trade_amount ≤ balances.mxn then
            (place_buy_order cfg st2 e buy_price).1
          else st2

/-- Shutdown path of run(): iterate the snapshot of active rows and attempt
a remote cancellation of each one in turn. -/
def run_shutdown (st : BotState) (e : Env) : BotState :=
  (get_active_orders_from_db st.ledger).foldl
    (fun s o => if o.is_active then (cancel_order s e o.order_id).1 else s) st

/-- The fee-relative pricing formula as the specification words it: buyPrice
is the bid rounded down to 2 decimals and sellPrice is the profit-markup
price clamped below by breakeven and above by the max factor, rounded up. -/
def spec_fee_relative_prices (bid fee amount : ℚ) : ℚ × ℚ :=
  let buyPrice := quantize2_down bid
  (buyPrice,
   quantize2_up (min (max (buyPrice * (1 + TARGET_PROFIT_PERCENTAGE))
                          ((buyPrice * amount) / (amount - amount * fee)))
                     (buyPrice * MAX_SELL_PRICE_FACTOR)))

/-- The ledger invariant claimed by the specification: the cached is_active
flag agrees with the status column. -/
def order_inv (o : Order) : Prop := o.is_active = (o.status == "active")

instance order_inv_decidable : DecidablePred order_inv :=
  fun o => instDecidableEqBool o.is_active (o.status == "active")

/-- The bot configuration built in the main block of the source. -/
def cfg0 : BotCfg := { book := BOOK, trade_amount := TRADE_AMOUNT }

/-- An empty bot state: no rows, no tracked ids. -/
def st0 : BotState :=
  { ledger := [], active_buy_orders := [], active_sell_orders := [] }

/-- A locally active buy order with a stored target price. -/
def buyOrderB1 : Order :=
  { order_id := "b1", book := "btc_mxn", side := "buy", price := 100,
    amount := 1, target_price := some 102, status := "active",
    is_active := true }

/-- State holding exactly the active buy order b1. -/
def stB1 : BotState :=
  { ledger := [buyOrderB1], active_buy_orders := ["b1"],
    active_sell_orders := [] }

/-- Environment for the completed-buy scenario: the remote lookup reports
the buy as complete, every other remote call succeeds. -/
def envComplete : Env :=
  { ticker := some { bid := 100, ask := 101 },
    fee_percent := some (65 / 100),
    balances := some { btc := 1, mxn := 100000 },
    placeOrder := fun _ _ => some "s1",
    lookupOrder := fun _ => .found "complete",
    cancelOrder := fun _ => some "true", dbFail := false }

/-- Environment whose remote lookups report every order as open, with ample
MXN, no BTC, and a working buy placement returning id b2. -/
def envOpenBuy : Env :=
  { ticker := some { bid := 100, ask := 101 },
    fee_percent := some (65 / 100),
    balances := some { btc := 0, mxn := 100000 },
    placeOrder := fun side _ => if side == "buy" then some "b2" else none,
    lookupOrder := fun _ => .found "open",
    cancelOrder := fun _ => some "true", dbFail := false }

/-- Environment identical to envOpenBuy except that every database insert
fails (rolled back). -/
def envDbFail : Env := { envOpenBuy with dbFail := true }

/-- Environment whose fee lookup raises while everything else succeeds:
ample MXN, no BTC, a working buy placement returning id b1. -/
def envFeeDown : Env :=
  { ticker := some { bid := 100, ask := 101 },
    fee_percent := none,
    balances := some { btc := 0, mxn := 100000 },
    placeOrder := fun side _ => if side == "buy" then some "b1" else none,
    lookupOrder := fun _ => .found "open",
    cancelOrder := fun _ => some "true", dbFail := false }

/-- Three locally active buy orders for the shutdown scenario. -/
def buyOrderA1 : Order := { buyOrderB1 with order_id := "a1" }

/-- Third active order of the shutdown scenario. -/
def buyOrderC1 : Order := { buyOrderB1 with order_id := "c1" }

/-- State with three active orders a1, b1, c1. -/
def stShutdown : BotState :=
  { ledger := [buyOrderA1, buyOrderB1, buyOrderC1],
    active_buy_orders := ["a1", "b1", "c1"], active_sell_orders := [] }

/-- Environment in which the remote cancellation of b1 raises and every
other cancellation succeeds. -/
def envCancelB1Fails : Env :=
  { ticker := none, fee_percent := none, balances := none,
    placeOrder := fun _ _ => none,
    lookupOrder := fun _ => .errOther,
    cancelOrder := fun oid => if oid == "b1" then none else some "true",
    dbFail := false }

/-- Environment whose remote lookup raises the Bitso error 0312 (order
already closed) for every id. -/
def envClosed : Env := { envComplete with lookupOrder := fun _ => .errClosed }

/-- An active row used by the ledger-invariant witness. -/
def rowW1 : Order :=
  { order_id := "w1", book := "btc_mxn", side := "buy", price := 100,
    amount := 1, target_price := none, status := "active",
    is_active := true }

/-- The same row after a transition to the cancelled status. -/
def rowW1Cancelled : Order :=
  { rowW1 with status := "cancelled", is_active := false }

/-- Scenario B ticker of the specification: bid 1000000.00. -/
def tickerScenarioB : Ticker := { bid := 1000000, ask := 1000100 }

theorem foldl_fixed {α β : Type} (f : β → α → β) (L : List α) (s : β)
    (h : ∀ b a, f b a = b) : L.foldl f s = s := by
  induction L generalizing s with
  | nil => rfl
  | cons a rest ih => simp [List.foldl, h, ih]

theorem quantize2_down_eval (x : ℚ) (z : ℤ) (hx : 0 ≤ x)
    (h : ⌊x * 100⌋ = z) : quantize2_down x = (z : ℚ) / 100 := by
  unfold quantize2_down
  rw [if_pos hx, h]

theorem quantize2_up_eval (x : ℚ) (z : ℤ) (hx : 0 ≤ x)
    (h : ⌈x * 100⌉ = z) : quantize2_up x = (z : ℚ) / 100 := by
  unfold quantize2_up
  rw [if_pos hx, h]

theorem calc_eq_spec (cfg : BotCfg) (tk : Ticker) (fee : ℚ) :
    calculate_prices cfg (some tk) fee =
      some (spec_fee_relative_prices tk.bid fee cfg.trade_amount) := rfl

theorem check_orders_body_eq (cfg : BotCfg) (e : Env) (fee : ℚ)
    (st : BotState) (o : Order) :
    check_orders_body cfg e fee st o = (check_order_status st e o.order_id).1 := by
  unfold check_orders_body
  rcases h : check_order_status st e o.order_id with ⟨s1, r⟩
  cases r with
  | none => rfl
  | some status =>
    by_cases hs : status = "open"
    · subst hs
      have hno : ¬ (o.side = "buy" ∧ ("open" : String) = "complete") :=
        fun hcon => by exact absurd hcon.2 (by decide)
      simp [hno]
    · simp [hs]

theorem check_order_status_fst_open (st : BotState) (e : Env) (oid : String)
    (h : e.lookupOrder oid = .found "open") :
    (check_order_status st e oid).1 = st := by
  unfold check_order_status
  by_cases h0 : (oid == "") = true
  · rw [if_pos h0]
  · rw [if_neg h0]
    simp [h]

theorem check_active_orders_open (cfg : BotCfg) (st : BotState) (e : Env)
    (hopen : ∀ i, e.lookupOrder i = .found "open") :
    check_active_orders cfg st e = st := by
  unfold check_active_orders
  by_cases hemp : (get_active_orders_from_db st.ledger).isEmpty = true
  · rw [if_pos hemp]
  · rw [if_neg hemp]
    cases htk : e.ticker with
    | none => rfl
    | some tk =>
      refine foldl_fixed _ _ _ (fun b a => ?_)
      rw [check_orders_body_eq, check_order_status_fst_open _ _ _ (hopen _)]

theorem cycle_places_buy (cfg : BotCfg) (st : BotState) (e : Env)
    (tk : Ticker) (bal : Balances) (bp sp : ℚ) (oid : String)
    (hopen : ∀ i, e.lookupOrder i = .found "open")
    (htk : e.ticker = some tk)
    (hbal : e.balances = some bal)
    (hcalc : calculate_prices cfg (some tk) (get_fees e) = some (bp, sp))
    (hbp : ¬ bp = 0) (hsp : ¬ sp = 0)
    (hbtc : ¬ cfg.trade_amount + cfg.trade_amount * get_fees e ≤ bal.btc)
    (hmxn : bp * cfg.trade_amount ≤ bal.mxn)
    (hplace : e.placeOrder "buy" bp = some oid) :
    ∃ tp : ℚ, run_trading_cycle cfg st e =
      { ledger := save_order_to_db cfg st.ledger e.dbFail oid "buy" bp
                    cfg.trade_amount (some tp) "active",
        active_buy_orders := st.active_buy_orders ++ [oid],
        active_sell_orders := st.active_sell_orders } := by
  refine ⟨quantize2_up (min (max (bp * (1 + TARGET_PROFIT_PERCENTAGE))
      ((bp * cfg.trade_amount) /
        (cfg.trade_amount - cfg.trade_amount * get_fees e)))
      (bp * MAX_SELL_PRICE_FACTOR)), ?_⟩
  unfold run_trading_cycle
  rw [check_active_orders_open cfg st e hopen]
  simp only [htk, hcalc]
  rw [if_neg (not_or.mpr ⟨hbp, hsp⟩)]
  simp only [hbal]
  rw [if_neg hbtc, if_pos hmxn]
  unfold place_buy_order
  simp only [hbal, hplace]
  rw [if_neg (not_lt.mpr hmxn)]

theorem count_active_save_buy (cfg : BotCfg) (L : List Order) (oid : String)
    (bp q : ℚ) (tp : Option ℚ)
    (hdup : L.any (fun o => o.order_id == oid) = false) :
    count_active_orders_by_side
        (save_order_to_db cfg L false oid "buy" bp q tp "active") "buy" =
      count_active_orders_by_side L "buy" + 1 := by
  unfold save_order_to_db count_active_orders_by_side
  simp [hdup, List.filter_append]

/-- Claim C4: the fee-relative pricing function returns the bid rounded
down to 2 decimal places as the buy price, and as the sell price the
profit-markup price clamped below by the fee breakeven and above by the max
factor, rounded up to 2 decimal places, for every positive trade amount and
fee fraction in [0, 1). -/
theorem calculate_prices_matches_spec (cfg : BotCfg) (tk : Ticker) (fee : ℚ)
    (ha : 0 < cfg.trade_amount) (hf0 : 0 ≤ fee) (hf1 : fee < 1) :
    calculate_prices cfg (some tk) fee =
      some (spec_fee_relative_prices tk.bid fee cfg.trade_amount) := rfl

/-- Witness for C4 at Scenario B of the specification: bid 1000000, fee
0.0065, trade amount 0.00001, giving buy 1000000 and sell 1020000. -/
theorem calculate_prices_matches_spec_witness :
    (0 : ℚ) < cfg0.trade_amount ∧ (0 : ℚ) ≤ 65 / 10000 ∧
    (65 : ℚ) / 10000 < 1 ∧
    calculate_prices cfg0 (some tickerScenarioB) (65 / 10000) =
      some (spec_fee_relative_prices tickerScenarioB.bid (65 / 10000)
              cfg0.trade_amount) ∧
    calculate_prices cfg0 (some tickerScenarioB) (65 / 10000) =
      some (1000000, 1020000) := by
  refine ⟨by norm_num [cfg0, TRADE_AMOUNT], by norm_num, by norm_num,
    calculate_prices_matches_spec cfg0 tickerScenarioB (65 / 10000)
      (by norm_num [cfg0, TRADE_AMOUNT]) (by norm_num) (by norm_num), ?_⟩
  rw [calc_eq_spec]
  simp only [spec_fee_relative_prices, tickerScenarioB, cfg0, TRADE_AMOUNT,
    TARGET_PROFIT_PERCENTAGE, MAX_SELL_PRICE_FACTOR]
  rw [quantize2_down_eval (1000000 : ℚ) 100000000 (by norm_num) (by norm_num)]
  rw [max_eq_left (by norm_num), min_eq_left (by norm_num)]
  rw [quantize2_up_eval _ 102000000 (by norm_num)
    (by rw [Int.ceil_eq_iff]; norm_num)]
  norm_num

/-- Claim C7: a second insert with an already stored exchange order id is a
no-op: the ledger, and in particular the stored record for that id, stays
exactly what it was after the first insert. -/
theorem duplicate_insert_noop (cfg : BotCfg) (L : List Order) (oid : String)
    (sd1 : String) (p1 q1 : ℚ) (tp1 : Option ℚ) (stat1 : String)
    (sd2 : String) (p2 q2 : ℚ) (tp2 : Option ℚ) (stat2 : String) :
    save_order_to_db cfg (save_order_to_db cfg L false oid sd1 p1 q1 tp1 stat1)
        false oid sd2 p2 q2 tp2 stat2 =
      save_order_to_db cfg L false oid sd1 p1 q1 tp1 stat1 ∧
    (save_order_to_db cfg (save_order_to_db cfg L false oid sd1 p1 q1 tp1 stat1)
        false oid sd2 p2 q2 tp2 stat2).find? (fun o => o.order_id == oid) =
      (save_order_to_db cfg L false oid sd1 p1 q1 tp1 stat1).find?
        (fun o => o.order_id == oid) := by
  have hmain :
      save_order_to_db cfg (save_order_to_db cfg L false oid sd1 p1 q1 tp1 stat1)
          false oid sd2 p2 q2 tp2 stat2 =
        save_order_to_db cfg L false oid sd1 p1 q1 tp1 stat1 := by
    unfold save_order_to_db
    by_cases h : L.any (fun o => o.order_id == oid) = true
    · simp [h]
    · simp [h, List.any_append]
  exact ⟨hmain, by rw [hmain]⟩

/-- Claim C10: the divisor of the breakeven computation is strictly
positive whenever the trade amount is positive and the fee fraction lies in
[0, 1), so the division-by-zero branch is unreachable; at fee fraction 1 the
computation has no defined result. -/
theorem breakeven_divisor_positive :
    (∀ bp a f : ℚ, 0 < a → 0 ≤ f → f < 1 →
      0 < a - a * f ∧ (breakeven_price bp a f).isSome = true) ∧
    (∀ bp a : ℚ, breakeven_price bp a 1 = none) := by
  constructor
  · intro bp a f ha hf0 hf1
    have hpos : 0 < a - a * f := by nlinarith
    refine ⟨hpos, ?_⟩
    simp [breakeven_price, hpos.ne']
  · intro bp a
    simp [breakeven_price]

/-- Witness for C10 at trade amount 0.00001 and fee fraction 0.0065. -/
theorem breakeven_divisor_positive_witness :
    (0 : ℚ) < 1 / 100000 ∧ (0 : ℚ) ≤ 65 / 10000 ∧ (65 : ℚ) / 10000 < 1 ∧
    (0 < (1 : ℚ) / 100000 - (1 / 100000) * (65 / 10000) ∧
      (breakeven_price 100 (1 / 100000) (65 / 10000)).isSome = true) :=
  ⟨by norm_num, by norm_num, by norm_num,
   breakeven_divisor_positive.1 100 (1 / 100000) (65 / 10000)
     (by norm_num) (by norm_num) (by norm_num)⟩

/-- Counterexample to C8: an insert with the status argument completed
stores is_active as true, so the stored flag diverges from
(status == active) right after the operation. -/
theorem insert_status_ignores_is_active_cex :
    (save_order_to_db cfg0 [] false "x1" "buy" 100 1 none "completed").map
        (fun o => (o.status, o.is_active)) = [("completed", true)] ∧
    (("completed" : String) == "active") = false := by
  exact ⟨by decide, by decide⟩

/-- Claim C8 as amended: the invariant is_active = (status == active) is
preserved by an insert whose status argument is active (the only value the
program ever passes) and by a status update to any non-active status; an
insert with a non-active status argument violates it, because inserts
always store is_active as true, and an update back to active would not
restore the flag. -/
theorem ledger_ops_preserve_inv :
    (∀ (cfg : BotCfg) (L : List Order) (dbf : Bool) (oid sd : String)
        (p q : ℚ) (tp : Option ℚ),
      (∀ o ∈ L, order_inv o) →
      ∀ o ∈ save_order_to_db cfg L dbf oid sd p q tp "active", order_inv o) ∧
    (∀ (L : List Order) (oid s : String), s ≠ "active" →
      (∀ o ∈ L, order_inv o) →
      ∀ o ∈ update_order_status L oid s, order_inv o) := by
  constructor
  · intro cfg L dbf oid sd p q tp hL o ho
    unfold save_order_to_db at ho
    split at ho
    · exact hL o ho
    · rcases List.mem_append.mp ho with h | h
      · exact hL o h
      · simp only [List.mem_singleton] at h
        subst h
        simp [order_inv]
  · intro L oid s hs
    induction L with
    | nil =>
      intro hL o ho
      simp [update_order_status] at ho
    | cons hd rest ih =>
      intro hL o ho
      unfold update_order_status at ho
      by_cases hc : (hd.order_id == oid) = true
      · rw [if_pos hc] at ho
        rcases List.mem_cons.mp ho with h | h
        · subst h
          simp [order_inv, if_neg hs, beq_eq_false_iff_ne.mpr hs]
        · exact hL o (List.mem_cons_of_mem hd h)
      · rw [if_neg hc] at ho
        rcases List.mem_cons.mp ho with h | h
        · subst h
          exact hL o (List.mem_cons_self o rest)
        · exact ih (fun x hx => hL x (List.mem_cons_of_mem hd hx)) o h

/-- Witness for the amended C8: updating the active row w1 to cancelled
yields a row whose is_active flag agrees with its status. -/
theorem ledger_ops_preserve_inv_witness :
    ("cancelled" : String) ≠ "active" ∧ order_inv rowW1Cancelled :=
  ⟨by decide,
   ledger_ops_preserve_inv.2 [rowW1] "w1" "cancelled" (by decide)
     (by decide) rowW1Cancelled (by decide)⟩

/-- Counterexample to C3: with a failing database insert the buy placement
still appends the new id b2 to the in-process buy list while the ledger
stays empty. -/
theorem buy_appended_despite_db_failure_cex :
    envDbFail.dbFail = true ∧
    (place_buy_order cfg0 st0 envDbFail 100).1.ledger = [] ∧
    (place_buy_order cfg0 st0 envDbFail 100).1.active_buy_orders = ["b2"] := by
  refine ⟨rfl, ?_, ?_⟩ <;>
    norm_num [place_buy_order, envDbFail, envOpenBuy, cfg0, TRADE_AMOUNT,
      save_order_to_db, st0]

/-- Claim C3 as amended: save_order_to_db swallows insert failures, so a
successful remote buy placement appends the new id to the in-process list
regardless of whether the ledger write succeeded; when the write fails the
ledger is unchanged while the list has grown. -/
theorem place_buy_appends_regardless_of_db (cfg : BotCfg) (st : BotState)
    (e : Env) (bp : ℚ) (bal : Balances) (oid : String)
    (hbal : e.balances = some bal)
    (hmxn : ¬ bal.mxn < bp * cfg.trade_amount)
    (hplace : e.placeOrder "buy" bp = some oid) :
    (place_buy_order cfg st e bp).1.active_buy_orders =
        st.active_buy_orders ++ [oid] ∧
    (e.dbFail = true → (place_buy_order cfg st e bp).1.ledger = st.ledger) := by
  unfold place_buy_order
  simp only [hbal, hplace]
  rw [if_neg hmxn]
  exact ⟨rfl, fun hdb => by simp [save_order_to_db, hdb]⟩

/-- Witness for the amended C3 in the failing-insert environment. -/
theorem place_buy_appends_regardless_of_db_witness :
    envDbFail.balances = some { btc := 0, mxn := 100000 } ∧
    ¬ (({ btc := 0, mxn := 100000 } : Balances).mxn <
        (100 : ℚ) * cfg0.trade_amount) ∧
    envDbFail.placeOrder "buy" 100 = some "b2" ∧
    ((place_buy_order cfg0 stB1 envDbFail 100).1.active_buy_orders =
        stB1.active_buy_orders ++ ["b2"] ∧
      (envDbFail.dbFail = true →
        (place_buy_order cfg0 stB1 envDbFail 100).1.ledger = stB1.ledger)) :=
  ⟨rfl, by norm_num [cfg0, TRADE_AMOUNT],
   rfl,
   place_buy_appends_regardless_of_db cfg0 stB1 envDbFail 100
     { btc := 0, mxn := 100000 } "b2" rfl
     (by norm_num [cfg0, TRADE_AMOUNT]) rfl⟩

theorem calc_openbuy :
    calculate_prices cfg0 (some { bid := 100, ask := 101 })
        (get_fees envOpenBuy) = some (100, 102) := by
  rw [calc_eq_spec]
  simp only [spec_fee_relative_prices, get_fees, envOpenBuy, cfg0,
    TRADE_AMOUNT, TARGET_PROFIT_PERCENTAGE, MAX_SELL_PRICE_FACTOR]
  rw [quantize2_down_eval (100 : ℚ) 10000 (by norm_num) (by norm_num)]
  rw [max_eq_left (by norm_num), min_eq_left (by norm_num)]
  rw [quantize2_up_eval _ 10200 (by norm_num)
    (by rw [Int.ceil_eq_iff]; norm_num)]
  norm_num

theorem calc_feedown :
    calculate_prices cfg0 (some { bid := 100, ask := 101 })
        (get_fees envFeeDown) = some (100, 102) := by
  rw [calc_eq_spec]
  simp only [spec_fee_relative_prices, get_fees, envFeeDown, cfg0,
    TRADE_AMOUNT, TARGET_PROFIT_PERCENTAGE, MAX_SELL_PRICE_FACTOR, SPREAD_FEE]
  rw [quantize2_down_eval (100 : ℚ) 10000 (by norm_num) (by norm_num)]
  rw [max_eq_left (by norm_num), min_eq_left (by norm_num)]
  rw [quantize2_up_eval _ 10200 (by norm_num)
    (by rw [Int.ceil_eq_iff]; norm_num)]
  norm_num

/-- Claim C1 (code bug): the reconciliation loop can never place a sell
order for a completed buy.  The loop body always equals the bare status
check, because the guard skipping every order whose looked-up status is not
open also skips exactly the completed orders the sell-placement block is
meant to handle.  Concretely, reconciling the active buy b1 whose remote
status is complete marks it complete but places no sell order. -/
theorem reconcile_never_places_sell :
    (∀ (cfg : BotCfg) (e : Env) (fee : ℚ) (st : BotState) (o : Order),
      check_orders_body cfg e fee st o =
        (check_order_status st e o.order_id).1) ∧
    (check_active_orders cfg0 stB1 envComplete).active_sell_orders = [] ∧
    (check_active_orders cfg0 stB1 envComplete).ledger.filter
        (fun o => o.side == "sell") = [] ∧
    (check_active_orders cfg0 stB1 envComplete).ledger.map
        (fun o => o.status) = ["complete"] := by
  have hfin : check_active_orders cfg0 stB1 envComplete =
      { ledger := [{ order_id := "b1", book := "btc_mxn", side := "buy",
                     price := 100, amount := 1, target_price := some 102,
                     status := "complete", is_active := false }],
        active_buy_orders := [], active_sell_orders := [] } := by
    simp [check_active_orders, get_active_orders_from_db, stB1, buyOrderB1,
      check_orders_body_eq, check_order_status, envComplete,
      update_order_status, List.erase]
  exact ⟨check_orders_body_eq, by rw [hfin], by rw [hfin]; rfl,
    by rw [hfin]; rfl⟩

/-- Counterexample to C2: with one active buy order already in the ledger
(so that countActive(buy) has reached a limit of one), a cycle with ample
MXN balance still places a second buy order, raising the number of active
buy orders to two. -/
theorem concurrency_limit_not_enforced_cex :
    count_active_orders_by_side stB1.ledger "buy" = 1 ∧
    1 ≤ count_active_orders_by_side stB1.ledger "buy" ∧
    count_active_orders_by_side
        (run_trading_cycle cfg0 stB1 envOpenBuy).ledger "buy" = 2 := by
  obtain ⟨tp, hfin⟩ := cycle_places_buy cfg0 stB1 envOpenBuy
    { bid := 100, ask := 101 } { btc := 0, mxn := 100000 } 100 102 "b2"
    (fun i => rfl) rfl rfl calc_openbuy (by norm_num) (by norm_num)
    (by norm_num [cfg0, TRADE_AMOUNT, get_fees, envOpenBuy])
    (by norm_num [cfg0, TRADE_AMOUNT]) rfl
  refine ⟨by decide, by decide, ?_⟩
  rw [hfin]
  have hdb : envOpenBuy.dbFail = false := rfl
  rw [hdb, count_active_save_buy cfg0 stB1.ledger "b2" 100 cfg0.trade_amount
    (some tp) (by decide)]
  decide

/-- Claim C2 as amended: the trading cycle performs no concurrency-limit
check at all — count_active_orders_by_side is never consulted — so whenever
the balance checks pass and the remote placement succeeds, a new buy order
is placed regardless of how many active buy orders already exist. -/
theorem cycle_has_no_concurrency_check (cfg : BotCfg) (st : BotState)
    (e : Env) (tk : Ticker) (bal : Balances) (bp sp : ℚ) (oid : String)
    (m : ℕ)
    (hopen : ∀ i, e.lookupOrder i = .found "open")
    (htk : e.ticker = some tk)
    (hbal : e.balances = some bal)
    (hcalc : calculate_prices cfg (some tk) (get_fees e) = some (bp, sp))
    (hbp : ¬ bp = 0) (hsp : ¬ sp = 0)
    (hbtc : ¬ cfg.trade_amount + cfg.trade_amount * get_fees e ≤ bal.btc)
    (hmxn : bp * cfg.trade_amount ≤ bal.mxn)
    (hplace : e.placeOrder "buy" bp = some oid)
    (hlimit : m ≤ count_active_orders_by_side st.ledger "buy") :
    (run_trading_cycle cfg st e).active_buy_orders =
      st.active_buy_orders ++ [oid] := by
  obtain ⟨tp, hfin⟩ := cycle_places_buy cfg st e tk bal bp sp oid hopen htk
    hbal hcalc hbp hsp hbtc hmxn hplace
  rw [hfin]

/-- Witness for the amended C2: the cycle appends the new buy id b2 even
though countActive(buy) already reached the limit one. -/
theorem cycle_has_no_concurrency_check_witness :
    1 ≤ count_active_orders_by_side stB1.ledger "buy" ∧
    (run_trading_cycle cfg0 stB1 envOpenBuy).active_buy_orders =
      stB1.active_buy_orders ++ ["b2"] :=
  ⟨by decide,
   cycle_has_no_concurrency_check cfg0 stB1 envOpenBuy
     { bid := 100, ask := 101 } { btc := 0, mxn := 100000 } 100 102 "b2" 1
     (fun i => rfl) rfl rfl calc_openbuy (by norm_num) (by norm_num)
     (by norm_num [cfg0, TRADE_AMOUNT, get_fees, envOpenBuy])
     (by norm_num [cfg0, TRADE_AMOUNT]) rfl (by decide)⟩

/-- Counterexample to C5: when the remote fee lookup raises, the cycle is
not abandoned — get_fees substitutes the fallback SPREAD_FEE and the cycle
goes on to place a buy order priced with that substitute fee. -/
theorem fee_failure_still_places_cex :
    envFeeDown.fee_percent = none ∧ get_fees envFeeDown = SPREAD_FEE ∧
    (run_trading_cycle cfg0 st0 envFeeDown).active_buy_orders = ["b1"] := by
  refine ⟨rfl, rfl, ?_⟩
  obtain ⟨tp, hfin⟩ := cycle_places_buy cfg0 st0 envFeeDown
    { bid := 100, ask := 101 } { btc := 0, mxn := 100000 } 100 102 "b1"
    (fun i => rfl) rfl rfl calc_feedown (by norm_num) (by norm_num)
    (by norm_num [cfg0, TRADE_AMOUNT, get_fees, envFeeDown, SPREAD_FEE])
    (by norm_num [cfg0, TRADE_AMOUNT]) rfl
  rw [hfin]
  rfl

/-- Claim C5 as amended: a raising fee lookup does not abandon the cycle;
get_fees returns the fallback SPREAD_FEE and the whole trading cycle
behaves exactly as if the remote fee had been reported as 1 percent. -/
theorem fee_fallback_substituted (cfg : BotCfg) (st : BotState) (e : Env)
    (h : e.fee_percent = none) :
    get_fees e = SPREAD_FEE ∧
    run_trading_cycle cfg st e =
      run_trading_cycle cfg st { e with fee_percent := some 1 } := by
  obtain ⟨tk, fp, bal, po, lo, co, db⟩ := e
  simp only at h
  subst h
  exact ⟨rfl, rfl⟩

/-- Witness for the amended C5 in the failing-fee environment. -/
theorem fee_fallback_substituted_witness :
    envFeeDown.fee_percent = none ∧
    (get_fees envFeeDown = SPREAD_FEE ∧
      run_trading_cycle cfg0 st0 envFeeDown =
        run_trading_cycle cfg0 st0 { envFeeDown with fee_percent := some 1 }) :=
  ⟨rfl, fee_fallback_substituted cfg0 st0 envFeeDown rfl⟩

theorem find?_cons_pos_id (hd : Order) (rest : List Order) (oid : String)
    (h : (hd.order_id == oid) = true) :
    List.find? (fun x => x.order_id == oid) (hd :: rest) = some hd := by
  simp [List.find?, h]

theorem find?_cons_neg_id (hd : Order) (rest : List Order) (oid : String)
    (h : (hd.order_id == oid) = false) :
    List.find? (fun x => x.order_id == oid) (hd :: rest) =
      List.find? (fun x => x.order_id == oid) rest := by
  simp [List.find?, h]

theorem find?_update_self (L : List Order) (oid s : String) (o : Order)
    (h : L.find? (fun x => x.order_id == oid) = some o) :
    (update_order_status L oid s).find? (fun x => x.order_id == oid) =
      some { o with status := s,
                    is_active := if s = "active" then o.is_active
                                 else false } := by
  induction L with
  | nil => simp [List.find?] at h
  | cons hd rest ih =>
    by_cases hc : (hd.order_id == oid) = true
    · rw [find?_cons_pos_id hd rest oid hc] at h
      obtain rfl : hd = o := by injection h
      unfold update_order_status
      rw [if_pos hc]
      exact find?_cons_pos_id _ _ _ hc
    · have hcf : (hd.order_id == oid) = false := by
        cases hcc : (hd.order_id == oid)
        · rfl
        · exact absurd hcc hc
      rw [find?_cons_neg_id hd rest oid hcf] at h
      unfold update_order_status
      rw [if_neg hc, find?_cons_neg_id hd _ oid hcf]
      exact ih h

theorem find?_update_ne (L : List Order) (oid q s : String) (hq : q ≠ oid) :
    (update_order_status L oid s).find? (fun x => x.order_id == q) =
      L.find? (fun x => x.order_id == q) := by
  induction L with
  | nil => rfl
  | cons hd rest ih =>
    unfold update_order_status
    by_cases hc : (hd.order_id == oid) = true
    · rw [if_pos hc]
      have hcqf : (hd.order_id == q) = false :=
        beq_eq_false_iff_ne.mpr (fun hEq => hq (hEq ▸ eq_of_beq hc))
      simp [List.find?, hcqf]
    · rw [if_neg hc]
      by_cases hcq : (hd.order_id == q) = true
      · simp [List.find?, hcq]
      · have hcqf : (hd.order_id == q) = false := Bool.eq_false_iff.mpr hcq
        simp [List.find?, hcqf, ih]

theorem find?_of_mem_nodup (L : List Order) (o : Order) (ho : o ∈ L)
    (hnd : (L.map (fun x => x.order_id)).Nodup) :
    L.find? (fun x => x.order_id == o.order_id) = some o := by
  induction L with
  | nil => cases ho
  | cons hd rest ih =>
    rw [List.map_cons, List.nodup_cons] at hnd
    rcases List.mem_cons.mp ho with h | h
    · subst h
      exact find?_cons_pos_id _ _ _ (beq_self_eq_true _)
    · have hne : (hd.order_id == o.order_id) = false :=
        beq_eq_false_iff_ne.mpr
          (fun hEq => hnd.1 (hEq ▸ List.mem_map_of_mem _ h))
      rw [find?_cons_neg_id _ _ _ hne]
      exact ih h hnd.2

theorem cancel_order_success (s : BotState) (e : Env) (oid : String)
    (h0 : (oid == "") = false) (hc : e.cancelOrder oid = some "true") :
    cancel_order s e oid =
      ({ ledger := update_order_status s.ledger oid "cancelled",
         active_buy_orders := s.active_buy_orders.erase oid,
         active_sell_orders := s.active_sell_orders.erase oid }, true) := by
  unfold cancel_order
  rw [if_neg (by simp [h0])]
  simp [hc]

theorem cancel_order_noop_of_fail (s : BotState) (e : Env) (oid : String)
    (h0 : (oid == "") = false) (hc : ¬ e.cancelOrder oid = some "true") :
    (cancel_order s e oid).1 = s := by
  unfold cancel_order
  rw [if_neg (by simp [h0])]
  cases hcc : e.cancelOrder oid with
  | none => simp only [hcc]
  | some r =>
    simp only [hcc]
    by_cases hrt : (r == "true") = true
    · exact absurd (hcc.trans (by rw [eq_of_beq hrt])) hc
    · rw [if_neg hrt]

theorem cancel_preserves_other (s : BotState) (e : Env) (oid q : String)
    (hq : q ≠ oid) :
    ((cancel_order s e oid).1).ledger.find? (fun x => x.order_id == q) =
      s.ledger.find? (fun x => x.order_id == q) := by
  unfold cancel_order
  by_cases h0 : (oid == "") = true
  · rw [if_pos h0]
  · rw [if_neg h0]
    cases hc : e.cancelOrder oid with
    | none => simp only [hc]
    | some r =>
      simp only [hc]
      by_cases hr : (r == "true") = true
      · rw [if_pos hr]
        exact find?_update_ne s.ledger oid q "cancelled" hq
      · rw [if_neg hr]

theorem shutdown_foldl_preserve (e : Env) (L : List Order) (q : String)
    (hq : ∀ x ∈ L, x.order_id ≠ q) (st : BotState) :
    ((L.foldl (fun s x => if x.is_active then (cancel_order s e x.order_id).1
        else s) st).ledger.find? (fun x => x.order_id == q)) =
      st.ledger.find? (fun x => x.order_id == q) := by
  induction L generalizing st with
  | nil => rfl
  | cons hd rest ih =>
    rw [List.foldl_cons]
    rw [ih (fun x hx => hq x (List.mem_cons_of_mem hd hx))]
    by_cases hact : hd.is_active = true
    · rw [if_pos hact]
      exact cancel_preserves_other st e hd.order_id q
        (Ne.symm (hq hd (List.mem_cons_self hd rest)))
    · rw [if_neg hact]

/-- Claim C6: a remote lookup failing with the Bitso error 0312 (order
already closed) transitions the local record to status completed with the
active flag cleared, removes the id from both in-process lists, and
returns no remote order. -/
theorem already_closed_maps_to_completed (st : BotState) (e : Env)
    (oid : String) (o : Order)
    (hid : (oid == "") = false)
    (hl : e.lookupOrder oid = .errClosed)
    (hf : st.ledger.find? (fun x => x.order_id == oid) = some o) :
    (check_order_status st e oid).1.ledger.find?
        (fun x => x.order_id == oid) =
      some { o with status := "completed", is_active := false } ∧
    (check_order_status st e oid).1.active_buy_orders =
      st.active_buy_orders.erase oid ∧
    (check_order_status st e oid).1.active_sell_orders =
      st.active_sell_orders.erase oid ∧
    (check_order_status st e oid).2 = none := by
  have hred : check_order_status st e oid =
      ({ ledger := update_order_status st.ledger oid "completed",
         active_buy_orders := st.active_buy_orders.erase oid,
         active_sell_orders := st.active_sell_orders.erase oid }, none) := by
    unfold check_order_status
    rw [if_neg (by simp [hid])]
    simp [hl]
  rw [hred]
  refine ⟨?_, rfl, rfl, rfl⟩
  have hupd := find?_update_self st.ledger oid "completed" o hf
  simpa using hupd

/-- Witness for C6: looking up the active buy b1 in the environment whose
lookups raise the 0312 error marks b1 completed and clears the lists. -/
theorem already_closed_maps_to_completed_witness :
    (("b1" : String) == "") = false ∧
    envClosed.lookupOrder "b1" = .errClosed ∧
    stB1.ledger.find? (fun x => x.order_id == "b1") = some buyOrderB1 ∧
    ((check_order_status stB1 envClosed "b1").1.ledger.find?
        (fun x => x.order_id == "b1") =
      some { buyOrderB1 with status := "completed", is_active := false } ∧
    (check_order_status stB1 envClosed "b1").1.active_buy_orders =
      stB1.active_buy_orders.erase "b1" ∧
    (check_order_status stB1 envClosed "b1").1.active_sell_orders =
      stB1.active_sell_orders.erase "b1" ∧
    (check_order_status stB1 envClosed "b1").2 = none) :=
  ⟨rfl, rfl, by decide,
   already_closed_maps_to_completed stB1 envClosed "b1" buyOrderB1 rfl rfl
     (by decide)⟩

/-- Claim C9: during shutdown every active order gets its own independent
cancellation attempt — an order whose remote cancel returns the success
string ends up cancelled in the ledger, and an order whose cancel raises or
reports failure keeps its previous record, no matter what happened to the
other orders in the list. -/
theorem shutdown_cancels_independently (st : BotState) (e : Env)
    (hnd : (st.ledger.map (fun x => x.order_id)).Nodup)
    (o : Order) (ho : o ∈ st.ledger) (ha : o.is_active = true)
    (hid : (o.order_id == "") = false) :
    (run_shutdown st e).ledger.find? (fun x => x.order_id == o.order_id) =
      some (if e.cancelOrder o.order_id = some "true"
            then { o with status := "cancelled", is_active := false }
            else o) := by
  have hsnap : o ∈ get_active_orders_from_db st.ledger :=
    List.mem_filter.mpr ⟨ho, ha⟩
  have hsnd : ((get_active_orders_from_db st.ledger).map
      (fun x => x.order_id)).Nodup :=
    hnd.sublist ((List.filter_sublist _).map _)
  obtain ⟨l1, l2, hsplit⟩ := List.append_of_mem hsnap
  have hmapnd : ((l1 ++ o :: l2).map (fun x => x.order_id)).Nodup := by
    rw [← hsplit]
    exact hsnd
  rw [List.map_append, List.map_cons, List.nodup_append] at hmapnd
  obtain ⟨hnd1, hnd2, hdisj⟩ := hmapnd
  have h2 : ∀ x ∈ l2, x.order_id ≠ o.order_id := by
    intro x hx hEq
    exact (List.nodup_cons.mp hnd2).1 (hEq ▸ List.mem_map_of_mem _ hx)
  have h1 : ∀ x ∈ l1, x.order_id ≠ o.order_id := by
    intro x hx hEq
    exact hdisj (hEq ▸ List.mem_map_of_mem _ hx) (List.mem_cons_self _ _)
  have hfind : st.ledger.find? (fun x => x.order_id == o.order_id) = some o :=
    find?_of_mem_nodup st.ledger o ho hnd
  have hpre : ((l1.foldl (fun s x => if x.is_active then
      (cancel_order s e x.order_id).1 else s) st).ledger.find?
        (fun x => x.order_id == o.order_id)) = some o := by
    rw [shutdown_foldl_preserve e l1 o.order_id h1]
    exact hfind
  unfold run_shutdown
  rw [hsplit, List.foldl_append, List.foldl_cons]
  rw [shutdown_foldl_preserve e l2 o.order_id h2]
  rw [if_pos ha]
  by_cases hc : e.cancelOrder o.order_id = some "true"
  · rw [if_pos hc]
    rw [cancel_order_success _ _ _ hid hc]
    have hupd := find?_update_self _ o.order_id "cancelled" o hpre
    simpa using hupd
  · rw [if_neg hc]
    rw [cancel_order_noop_of_fail _ _ _ hid hc]
    exact hpre

/-- Witness for C9 in the shutdown scenario with three active orders where
the cancel of b1 raises: the later order c1 still gets its attempt and is
marked cancelled. -/
theorem shutdown_cancels_independently_witness :
    ((stShutdown.ledger.map (fun x => x.order_id)).Nodup ∧
      buyOrderC1 ∈ stShutdown.ledger ∧ buyOrderC1.is_active = true ∧
      (buyOrderC1.order_id == "") = false) ∧
    (run_shutdown stShutdown envCancelB1Fails).ledger.find?
        (fun x => x.order_id == buyOrderC1.order_id) =
      some (if envCancelB1Fails.cancelOrder buyOrderC1.order_id = some "true"
            then { buyOrderC1 with status := "cancelled", is_active := false }
            else buyOrderC1) :=
  ⟨⟨by decide, by decide, rfl, rfl⟩,
   shutdown_cancels_independently stShutdown envCancelB1Fails (by decide)
     buyOrderC1 (by decide) rfl rfl⟩
